import Mathlib

/-
Shallow embedding of the Samsara // SFMTA integration (application.py).

The source is a single Python module.  Python floats are modelled by the
rationals wherever the code only compares, adds and scales values; the
transcendental functions used by the haversine formula (sin, cos, sqrt,
atan2 and the constant pi) are not computable over the reals, so the
`distance` function is embedded parametrically in the numeric type and in
a record of those primitives, and the theorems instantiate them (over the
reals) with Mathlib's Real.sin, Real.cos, Real.sqrt and the argument
function of a complex number, discharging the few algebraic facts the
proofs need (oddness of sin, sqrt 0 = 0, sqrt 1 = 1, atan2 0 1 = 0).

Python dictionaries are modelled as association lists updated in place
(`dset`), the global `vehicle_ids` set as a duplicate-free list (`idAdd`),
exceptions as `Except String` results, and a Python function that falls
off its end (returning the implicit None) as an `Option` result of value
`none`.
-/

-- Configuration constants of application.py (lines 58-62).
def FREQUENCY : ℚ := 5

def DISTANCE_THRESHOLD : ℚ := 50

def MAX_RETRIES : Nat := 10

def ERROR_EMAIL_DELAY : ℚ := 7200

/-- A Python value stored in the outbound payload dictionary: the source
puts ints, strings and floats (floats modelled as rationals) into the
OrderedDict. -/
inductive PValue : Type
  | vInt : ℤ → PValue
  | vStr : String → PValue
  | vRat : ℚ → PValue
deriving DecidableEq, Repr

/-- One entry of `allowed_stops_json['Stops']['Stop']` with the three
fields that find_stop_id reads (lines 214-216). -/
structure Stop : Type where
  StopId : ℤ
  StopLocationLatitude : ℚ
  StopLocationLongitude : ℚ
deriving DecidableEq, Repr

/-- The `curr_distance` computed for one stop (line 218): the distance
function is a parameter `d`, applied exactly as in the source, stop
coordinates first, queried location second. -/
def sdist (d : ℚ → ℚ → ℚ → ℚ → ℚ) (stop_lat stop_long : ℚ) (stop : Stop) : ℚ :=
  d stop.StopLocationLatitude stop.StopLocationLongitude stop_lat stop_long

/-- One iteration of find_stop_id's scan (lines 213-222): strict
improvement of the running minimum replaces the accumulator
(closest_stop_id, min_distance). -/
def stopStep (d : ℚ → ℚ → ℚ → ℚ → ℚ) (stop_lat stop_long : ℚ)
    (acc : ℤ × ℚ) (stop : Stop) : ℤ × ℚ :=
  if sdist d stop_lat stop_long stop < acc.2
  then (stop.StopId, sdist d stop_lat stop_long stop)
  else acc

/-- The whole scan of find_stop_id, starting from
closest_stop_id = 9999, min_distance = 99999 (lines 210-222). -/
def stopScan (d : ℚ → ℚ → ℚ → ℚ → ℚ) (stop_lat stop_long : ℚ)
    (stops : List Stop) : ℤ × ℚ :=
  stops.foldl (stopStep d stop_lat stop_long) (9999, 99999)

/-- find_stop_id (lines 205-232).  `allowed` is the result of loading
allowed_stops.json from S3: `none` is a load failure, and the except
branch of the source then returns the error message string (line 231);
otherwise the scan runs and the threshold test (line 224) picks the
closest stop id or the sentinel.  The Python function returns an int on
the normal path and a string on the failure path, hence the PValue
result. -/
def find_stop_id (allowed : Option (List Stop)) (d : ℚ → ℚ → ℚ → ℚ → ℚ)
    (stop_lat stop_long : ℚ) : PValue :=
  match allowed with
  | none => PValue.vStr "Error loading data from S3 bucket"
  | some stops =>
    let r := stopScan d stop_lat stop_long stops
    if r.2 ≤ DISTANCE_THRESHOLD then PValue.vInt r.1 else PValue.vInt 9999

/-- The shared alert-throttle step (lines 276-286, 348-358, 435-445):
given the global LAST_ERROR_EMAIL_TIME and the current time, decide
whether an error email is sent and produce the new value of the global.
The comparison is strict, as in the source. -/
def alertStep (last now : ℚ) : Bool × ℚ :=
  if ERROR_EMAIL_DELAY < now - last then (true, now) else (false, last)

/-- The transcendental primitives used by `distance` (lines 109-128):
Python's math.sin, math.cos, math.sqrt, math.atan2 and the constant pi
used by math.radians.  They are parameters of the embedding because the
corresponding real functions are not computable; the theorems
instantiate them with Mathlib's real versions. -/
structure TrigOps (K : Type) : Type where
  pi : K
  fsin : K → K
  fcos : K → K
  fsqrt : K → K
  fatan2 : K → K → K

/-- Python's math.radians: degrees to radians. -/
def radians {K : Type} [Field K] (T : TrigOps K) (x : K) : K :=
  x * (T.pi / 180)

/-- Great-circle distance (lines 109-128), the haversine formula with a
fixed radius of 6371 * 1000 meters.  A `none` coordinate models a Python
None: the source then returns the sentinel 99999 before doing any
arithmetic (lines 118-119). -/
def distance {K : Type} [Field K] (T : TrigOps K)
    (origin_lat origin_long dest_lat dest_long : Option K) : K :=
  match origin_lat, origin_long, dest_lat, dest_long with
  | some lat1, some lon1, some lat2, some lon2 =>
    let dlat := radians T (lat2 - lat1)
    let dlon := radians T (lon2 - lon1)
    let a := T.fsin (dlat / 2) * T.fsin (dlat / 2) +
      T.fcos (radians T lat1) * T.fcos (radians T lat2) *
      T.fsin (dlon / 2) * T.fsin (dlon / 2)
    let c := 2 * T.fatan2 (T.fsqrt a) (T.fsqrt (1 - a))
    6371 * 1000 * c
  | _, _, _, _ => 99999

/-- Python dict assignment `m[k] = v` on an association list: replace the
binding if the key is present, append it otherwise. -/
def dset {B : Type} (m : List (String × B)) (k : String) (v : B) :
    List (String × B) :=
  if m.any (fun p => p.1 = k)
  then m.map (fun p => if p.1 = k then (k, v) else p)
  else m ++ [(k, v)]

/-- Python set.add on the duplicate-free list modelling `vehicle_ids`. -/
def idAdd (l : List String) (x : String) : List String :=
  if x ∈ l then l else l ++ [x]

/-- Python dict subscript `m[k]`: the value, or a KeyError carrying the
dict's name. -/
def keyGet {B : Type} (m : List (String × B)) (k dictName : String) :
    Except String B :=
  match m.lookup k with
  | some v => Except.ok v
  | none => Except.error ("KeyError: " ++ dictName)

/-- One vehicle record of the Samsara locations response
(lines 261-265). -/
structure LocEntry : Type where
  id : String
  latitude : ℚ
  longitude : ℚ
  onTrip : Bool
deriving DecidableEq, Repr

/-- The global position maps vehicle_lat, vehicle_long, vehicle_onTrip
(lines 89-91). -/
structure PosMaps : Type where
  vehicle_lat : List (String × ℚ)
  vehicle_long : List (String × ℚ)
  vehicle_onTrip : List (String × Bool)
deriving DecidableEq, Repr

/-- The per-vehicle updates of the locations loop (lines 261-265). -/
def applyLocations (m : PosMaps) (vs : List LocEntry) : PosMaps :=
  vs.foldl
    (fun acc v =>
      { vehicle_lat := dset acc.vehicle_lat v.id v.latitude
        vehicle_long := dset acc.vehicle_long v.id v.longitude
        vehicle_onTrip := dset acc.vehicle_onTrip v.id v.onTrip })
    m

/-- The retry loop of get_all_vehicle_data (lines 251-273).  `attempt i`
is the outcome of the i-th request: `none` when the try block raises
(transport error, bad HTTP status, parse failure), `some vs` when it
yields a parsed vehicle list.  `fuel` is local_retries, `used` counts
attempts made so far; the result is the first successful response (if
any) together with the total number of attempts made. -/
def runFetch (attempt : Nat → Option (List LocEntry)) :
    Nat → Nat → Option (List LocEntry) × Nat
  | 0, used => (none, used)
  | fuel + 1, used =>
    match attempt used with
    | some vs => (some vs, used + 1)
    | none => runFetch attempt fuel (used + 1)

/-- The retry loop of push_vehicle_data (lines 337-346): `attempt i`
is true when the i-th POST succeeds. -/
def runAttempts (attempt : Nat → Bool) : Nat → Nat → Bool × Nat
  | 0, used => (false, used)
  | fuel + 1, used =>
    if attempt used then (true, used + 1) else runAttempts attempt fuel (used + 1)

/-- Result of the embedded get_all_vehicle_data: the returned string, the
position maps after the call, the value of LAST_ERROR_EMAIL_TIME after
the call, and the number of request attempts made. -/
structure FetchResult : Type where
  ret : String
  maps : PosMaps
  lastEmail : ℚ
  attempts : Nat
deriving DecidableEq, Repr

/-- get_all_vehicle_data (lines 243-288).  The roster refresh it begins
with (line 246) touches disjoint state and is embedded separately as
get_vehicle_details.  On the first successful attempt the position maps
are updated and "Success" returned (lines 261-268); after MAX_RETRIES
failed attempts local_retries is 0, the alert throttle runs, and
"Failure" is returned unconditionally (lines 276-287). -/
def get_all_vehicle_data (attempt : Nat → Option (List LocEntry))
    (maps : PosMaps) (now last : ℚ) : FetchResult :=
  match runFetch attempt MAX_RETRIES 0 with
  | (some vs, used) =>
    { ret := "Success", maps := applyLocations maps vs, lastEmail := last,
      attempts := used }
  | (none, used) =>
    let s := alertStep last now
    { ret := "Failure", maps := maps, lastEmail := s.2, attempts := used }

/-- Result of the embedded push_vehicle_data: the returned value (`none`
models Python's implicit None when control falls off the end of the
function), the value of LAST_ERROR_EMAIL_TIME after the call, and the
number of POST attempts made. -/
structure PushResult : Type where
  ret : Option String
  lastEmail : ℚ
  attempts : Nat
deriving DecidableEq, Repr

/-- The retry-and-report part of push_vehicle_data (lines 337-360).  On a
successful attempt it returns "Success" (line 342).  On exhaustion the
alert throttle runs, and - faithfully to the source, where the
`return "Failure"` at line 359 sits inside the `if` that gates the error
email - "Failure" is returned only when the email is actually
dispatched; when the throttle suppresses the email the function falls
off its end and returns None. -/
def push_vehicle_data (attempt : Nat → Bool) (now last : ℚ) : PushResult :=
  match runAttempts attempt MAX_RETRIES 0 with
  | (true, used) => { ret := some "Success", lastEmail := last, attempts := used }
  | (false, used) =>
    let s := alertStep last now
    { ret := if s.1 then some "Failure" else none, lastEmail := s.2,
      attempts := used }

/-- build_sfmta_payload (lines 299-324).  The global dictionaries
placards, license_plates, vehicle_lat, vehicle_long, vehicle_onTrip are
parameters; each subscript can raise a KeyError, in source order:
placards (305), license_plates (306), vehicle_onTrip (308), then on the
not-onTrip branch vehicle_lat and vehicle_long as arguments of
find_stop_id (313), then vehicle_lat (319) and vehicle_long (320).
`allowed` and `d` are the stop data and distance function consumed by
find_stop_id; `timeStampLocal` is the strftime rendering of
current_time.  The OrderedDict is the returned association list, keys in
assignment order. -/
def build_sfmta_payload (techProviderId : ℤ) (shuttleCompanyId : String)
    (placards license_plates : List (String × String))
    (vlat vlong : List (String × ℚ)) (vonTrip : List (String × Bool))
    (allowed : Option (List Stop)) (d : ℚ → ℚ → ℚ → ℚ → ℚ)
    (vehicle_id : String) (timeStampLocal : String) :
    Except String (List (String × PValue)) := do
  let placard ← keyGet placards vehicle_id "placards"
  let plate ← keyGet license_plates vehicle_id "license_plates"
  let onTrip ← keyGet vonTrip vehicle_id "vehicle_onTrip"
  let statusStop ←
    if onTrip then
      pure ((1 : ℤ), PValue.vInt 9999)
    else do
      let la ← keyGet vlat vehicle_id "vehicle_lat"
      let lo ← keyGet vlong vehicle_id "vehicle_long"
      pure ((2 : ℤ), find_stop_id allowed d la lo)
  let la ← keyGet vlat vehicle_id "vehicle_lat"
  let lo ← keyGet vlong vehicle_id "vehicle_long"
  pure [("TechProviderId", PValue.vInt techProviderId),
    ("ShuttleCompanyId", PValue.vStr shuttleCompanyId),
    ("VehiclePlacardNum", PValue.vStr placard),
    ("LicensePlateNum", PValue.vStr plate),
    ("StopId", statusStop.2),
    ("VehicleStatus", PValue.vInt statusStop.1),
    ("LocationLatitude", PValue.vRat la),
    ("LocationLongitude", PValue.vRat lo),
    ("TimeStampLocal", PValue.vStr timeStampLocal)]

/-- One row of the Google Sheet feed (lines 150-156).  A `none` field
models a missing key: the corresponding subscript raises KeyError. -/
structure Entry : Type where
  samsaradeviceid : Option String
  vehicleplacardnumber : Option String
  licenseplatenumber : Option String
  vehicleidname : Option String
deriving DecidableEq, Repr

/-- The roster globals vehicle_ids, placards, license_plates,
vehicle_names (lines 84-87). -/
structure Roster : Type where
  vehicle_ids : List String
  placards : List (String × String)
  license_plates : List (String × String)
  vehicle_names : List (String × String)
deriving DecidableEq, Repr

/-- What becomes of the body of a 200 response inside the try block:
json.loads itself raises (line 146, evaluated BEFORE vehicle_ids is
cleared at line 148), or json.loads succeeds but the subscripts
json_data['feed']['entry'] raise (line 150, evaluated AFTER the clear),
or the entry list is obtained. -/
inductive SheetBody : Type
  | parseError : String → SheetBody
  | shapeError : String → SheetBody
  | entries : List Entry → SheetBody
deriving DecidableEq, Repr

/-- The response of urllib.urlopen on the sheet URL: a transport error
(urlopen raised), or an HTTP code together with the fate of the body. -/
inductive SheetResponse : Type
  | transportError : String → SheetResponse
  | httpR : ℤ → SheetBody → SheetResponse
deriving DecidableEq, Repr

/-- The entry loop of get_vehicle_details (lines 150-156), mutating the
roster in place entry by entry.  Within one entry the subscripts run in
source order, so a missing key aborts mid-entry, keeping all updates
already made (including, for a missing placard, the id just added).
The result carries the roster as left by the loop and the error message
of the KeyError, if one was raised. -/
def processEntries (r : Roster) : List Entry → Roster × Option String
  | [] => (r, none)
  | e :: es =>
    match e.samsaradeviceid with
    | none => (r, some "KeyError: gsx$samsaradeviceid")
    | some vid =>
      let r1 := { r with vehicle_ids := idAdd r.vehicle_ids vid }
      match e.vehicleplacardnumber with
      | none => (r1, some "KeyError: gsx$vehicleplacardnumber")
      | some pl =>
        let r2 := { r1 with placards := dset r1.placards vid pl }
        match e.licenseplatenumber with
        | none => (r2, some "KeyError: gsx$licenseplatenumber")
        | some lp =>
          let r3 := { r2 with license_plates := dset r2.license_plates vid lp }
          match e.vehicleidname with
          | none => (r3, some "KeyError: gsx$vehicleidname")
          | some nm =>
            processEntries
              { r3 with vehicle_names := dset r3.vehicle_names vid nm } es

/-- An entry of the sheet feed on which the per-entry subscripts of
get_vehicle_details all succeed. -/
def wellFormedEntry (e : Entry) : Prop :=
  e.samsaradeviceid.isSome = true ∧ e.vehicleplacardnumber.isSome = true ∧
    e.licenseplatenumber.isSome = true ∧ e.vehicleidname.isSome = true

instance (e : Entry) : Decidable (wellFormedEntry e) := by
  unfold wellFormedEntry; infer_instance

/-- get_vehicle_details (lines 134-161).  A transport error is caught and
turned into the error-message return (line 160).  A non-200 code only
prints and falls through to `return "Success"` with the roster untouched
(lines 140-143, 157-158).  On a 200 response, json.loads runs first
(line 146): if it raises, the exception is caught with the roster still
untouched.  Only then is vehicle_ids cleared (line 148), so a failure of
the json_data['feed']['entry'] subscripts (line 150) is caught with the
id set already cleared but the metadata maps intact; and a KeyError
inside the entry loop is caught only after the loop's partial mutations
have happened. -/
def get_vehicle_details (r : Roster) (resp : SheetResponse) : Roster × String :=
  match resp with
  | SheetResponse.transportError m =>
    (r, "Error reading vehicle details from Google Sheet\n" ++ m)
  | SheetResponse.httpR code body =>
    if code ≠ 200 then (r, "Success")
    else
      match body with
      | SheetBody.parseError m =>
        (r, "Error reading vehicle details from Google Sheet\n" ++ m)
      | SheetBody.shapeError m =>
        ({ r with vehicle_ids := [] },
          "Error reading vehicle details from Google Sheet\n" ++ m)
      | SheetBody.entries entries =>
        match processEntries { r with vehicle_ids := [] } entries with
        | (r2, none) => (r2, "Success")
        | (r2, some m) =>
          (r2, "Error reading vehicle details from Google Sheet\n" ++ m)

/-- What one iteration of push_all_data's
`while True: try ... except ...` body did before reaching the handler
(lines 408-432): it either ran to the `continue`/sleep point without
raising (this includes the early `continue` when get_all_vehicle_data
does not return "Success"), or it raised an exception. -/
inductive BodyOutcome : Type
  | ok : BodyOutcome
  | raises : BodyOutcome
deriving DecidableEq, Repr

/-- What one iteration of the push_all_data loop leads to: the next
iteration with the given LAST_ERROR_EMAIL_TIME, or termination of the
loop because an exception escaped it. -/
inductive IterResult : Type
  | next : ℚ → IterResult
  | crashed : IterResult
deriving DecidableEq, Repr

/-- One iteration of push_all_data's loop boundary (lines 408-446).
A body exception reaches the except handler; if the throttle window has
elapsed the handler calls send_error_email (line 443), and
`emailRaises` tells whether that call itself raises (SMTP connect,
login and send are network operations).  An exception raised inside the
except block is not caught by the same try, so it escapes the while
loop: the loop terminates, and LAST_ERROR_EMAIL_TIME (assigned only
after send_error_email returns, line 444) is left unchanged.  When the
email succeeds, or the throttle suppresses it, the handler falls
through to `continue`. -/
def push_all_data_iter (body : BodyOutcome) (emailRaises : Bool)
    (now last : ℚ) : IterResult :=
  match body with
  | BodyOutcome.ok => IterResult.next last
  | BodyOutcome.raises =>
    let s := alertStep last now
    if s.1 then
      if emailRaises then IterResult.crashed else IterResult.next s.2
    else IterResult.next s.2

/-- One atomic step a per-vehicle push thread takes through its
error-reporting section (lines 348-358).  push_all_vehicle_data runs
push_vehicle_data on one thread per vehicle (lines 379-382), and nothing
synchronizes the threads' accesses to the global LAST_ERROR_EMAIL_TIME,
so the three statements of the reporting section interleave freely
across threads: `check i` is thread i evaluating the comparison against
the shared global at line 353; `send i` is thread i completing the
blocking send_error_email call at line 356; `update i` is thread i
assigning its current_error_time to the global at line 357.  A thread
whose check read a stale value and failed performs no send and no
update. -/
inductive ThreadAct : Type
  | check : Nat → ThreadAct
  | send : Nat → ThreadAct
  | update : Nat → ThreadAct
deriving DecidableEq, Repr

/-- The shared and per-thread state of the interleaved reporting
sections: the global LAST_ERROR_EMAIL_TIME, the threads whose line-353
check succeeded (and which therefore proceed to lines 356-357), and the
current_error_time stamps of the error emails dispatched so far. -/
structure ThrottleRace : Type where
  last : ℚ
  passed : List Nat
  sent : List ℚ
deriving DecidableEq, Repr

/-- Effect of one atomic step on the shared state.  `times i` is the
current_error_time thread i read at line 349. -/
def raceStep (times : Nat → ℚ) (st : ThrottleRace) : ThreadAct → ThrottleRace
  | ThreadAct.check i =>
    if ERROR_EMAIL_DELAY < times i - st.last
    then { st with passed := i :: st.passed } else st
  | ThreadAct.send i =>
    if i ∈ st.passed then { st with sent := st.sent ++ [times i] } else st
  | ThreadAct.update i =>
    if i ∈ st.passed then { st with last := times i } else st

/-- Run one interleaving (schedule) of the threads' reporting
sections. -/
def raceRun (times : Nat → ℚ) (st : ThrottleRace)
    (sched : List ThreadAct) : ThrottleRace :=
  sched.foldl (raceStep times) st

-- Helper lemmas about the embedded operations.

lemma runAttempts_all_fail (a : Nat → Bool) :
    ∀ (fuel used : Nat), (∀ i, used ≤ i → i < used + fuel → a i = false) →
    runAttempts a fuel used = (false, used + fuel) := by
  intro fuel
  induction fuel with
  | zero => intro used _; simp [runAttempts]
  | succ f ih =>
    intro used h
    have h0 : a used = false := h used (Nat.le_refl used) (by omega)
    have h1 : runAttempts a (f + 1) used = runAttempts a f (used + 1) := by
      simp [runAttempts, h0]
    rw [h1, ih (used + 1) (by intro i hi1 hi2; exact h i (by omega) (by omega))]
    simp only [Prod.mk.injEq, true_and]
    omega

lemma runAttempts_success (a : Nat → Bool) :
    ∀ (fuel used N : Nat), used ≤ N → N < used + fuel →
    (∀ i, used ≤ i → i < N → a i = false) → a N = true →
    runAttempts a fuel used = (true, N + 1) := by
  intro fuel
  induction fuel with
  | zero => intro used N h1 h2 _ _; omega
  | succ f ih =>
    intro used N h1 h2 h3 h4
    by_cases hu : used = N
    · subst hu
      simp [runAttempts, h4]
    · have h0 : a used = false := h3 used (Nat.le_refl used) (by omega)
      have h5 : runAttempts a (f + 1) used = runAttempts a f (used + 1) := by
        simp [runAttempts, h0]
      rw [h5]
      exact ih (used + 1) N (by omega) (by omega)
        (fun i hi1 hi2 => h3 i (by omega) hi2) h4

lemma runFetch_all_fail (a : Nat → Option (List LocEntry)) :
    ∀ (fuel used : Nat), (∀ i, used ≤ i → i < used + fuel → a i = none) →
    runFetch a fuel used = (none, used + fuel) := by
  intro fuel
  induction fuel with
  | zero => intro used _; simp [runFetch]
  | succ f ih =>
    intro used h
    have h0 : a used = none := h used (Nat.le_refl used) (by omega)
    have h1 : runFetch a (f + 1) used = runFetch a f (used + 1) := by
      simp [runFetch, h0]
    rw [h1, ih (used + 1) (by intro i hi1 hi2; exact h i (by omega) (by omega))]
    simp only [Prod.mk.injEq, true_and]
    omega

lemma runFetch_success (a : Nat → Option (List LocEntry)) :
    ∀ (fuel used N : Nat) (vs : List LocEntry), used ≤ N → N < used + fuel →
    (∀ i, used ≤ i → i < N → a i = none) → a N = some vs →
    runFetch a fuel used = (some vs, N + 1) := by
  intro fuel
  induction fuel with
  | zero => intro used N vs h1 h2 _ _; omega
  | succ f ih =>
    intro used N vs h1 h2 h3 h4
    by_cases hu : used = N
    · subst hu
      simp [runFetch, h4]
    · have h0 : a used = none := h3 used (Nat.le_refl used) (by omega)
      have h5 : runFetch a (f + 1) used = runFetch a f (used + 1) := by
        simp [runFetch, h0]
      rw [h5]
      exact ih (used + 1) N vs (by omega) (by omega)
        (fun i hi1 hi2 => h3 i (by omega) hi2) h4

lemma idAdd_mem (l : List String) (y x : String) :
    x ∈ idAdd l y ↔ x ∈ l ∨ x = y := by
  unfold idAdd
  by_cases h : y ∈ l
  · simp only [if_pos h]
    exact ⟨Or.inl, fun hx => hx.elim id (fun he => he ▸ h)⟩
  · simp [if_neg h]

lemma stopScan_inv (d : ℚ → ℚ → ℚ → ℚ → ℚ) (la lo : ℚ) :
    ∀ (stops : List Stop) (acc : ℤ × ℚ),
      (stops.foldl (stopStep d la lo) acc).2 ≤ acc.2 ∧
      (∀ s ∈ stops, (stops.foldl (stopStep d la lo) acc).2 ≤ sdist d la lo s) ∧
      (stops.foldl (stopStep d la lo) acc = acc ∨
        ((stops.foldl (stopStep d la lo) acc).2 < acc.2 ∧
          ∃ pre x suf, stops = pre ++ x :: suf ∧
            (stops.foldl (stopStep d la lo) acc).1 = x.StopId ∧
            (stops.foldl (stopStep d la lo) acc).2 = sdist d la lo x ∧
            ∀ t ∈ pre, (stops.foldl (stopStep d la lo) acc).2 < sdist d la lo t)) := by
  intro stops
  induction stops with
  | nil =>
    intro acc
    refine ⟨le_refl _, ?_, Or.inl rfl⟩
    intro s hs
    exact absurd hs (List.not_mem_nil s)
  | cons s0 ss ih =>
    intro acc
    have hfld : (s0 :: ss).foldl (stopStep d la lo) acc =
        ss.foldl (stopStep d la lo) (stopStep d la lo acc s0) := rfl
    rcases ih (stopStep d la lo acc s0) with ⟨ih1, ih2, ih3⟩
    have hacc2 : (stopStep d la lo acc s0).2 ≤ acc.2 := by
      unfold stopStep
      by_cases hlt : sdist d la lo s0 < acc.2
      · rw [if_pos hlt]; exact le_of_lt hlt
      · rw [if_neg hlt]
    have hacc2a : (stopStep d la lo acc s0).2 ≤ sdist d la lo s0 := by
      unfold stopStep
      by_cases hlt : sdist d la lo s0 < acc.2
      · rw [if_pos hlt]
      · rw [if_neg hlt]; exact le_of_not_lt hlt
    refine ⟨?_, ?_, ?_⟩
    · rw [hfld]; exact le_trans ih1 hacc2
    · intro t ht
      rcases List.mem_cons.mp ht with h | h
      · subst h; rw [hfld]; exact le_trans ih1 hacc2a
      · rw [hfld]; exact ih2 t h
    · rcases ih3 with heq | ⟨hlt2, pre, x, suf, hsplit, hx1, hx2, hx3⟩
      · by_cases hlt : sdist d la lo s0 < acc.2
        · refine Or.inr ⟨?_, [], s0, ss, rfl, ?_, ?_, ?_⟩
          · rw [hfld, heq]
            unfold stopStep
            rw [if_pos hlt]
            exact hlt
          · rw [hfld, heq]
            unfold stopStep
            rw [if_pos hlt]
          · rw [hfld, heq]
            unfold stopStep
            rw [if_pos hlt]
          · intro t ht
            exact absurd ht (List.not_mem_nil t)
        · refine Or.inl ?_
          rw [hfld, heq]
          unfold stopStep
          rw [if_neg hlt]
      · refine Or.inr ⟨?_, s0 :: pre, x, suf, ?_, ?_, ?_, ?_⟩
        · rw [hfld]; exact lt_of_lt_of_le hlt2 hacc2
        · rw [hsplit]; rfl
        · rw [hfld]; exact hx1
        · rw [hfld]; exact hx2
        · intro t ht
          rcases List.mem_cons.mp ht with h | h
          · subst h
            rw [hfld]
            exact lt_of_lt_of_le hlt2 hacc2a
          · rw [hfld]; exact hx3 t h

lemma find_stop_id_range (stops : List Stop) (d : ℚ → ℚ → ℚ → ℚ → ℚ)
    (la lo : ℚ) :
    find_stop_id (some stops) d la lo = PValue.vInt 9999 ∨
      ∃ s ∈ stops, find_stop_id (some stops) d la lo = PValue.vInt s.StopId := by
  simp only [find_stop_id, stopScan]
  rcases (stopScan_inv d la lo stops (9999, 99999)).2.2 with
    heq | ⟨_, pre, x, suf, hsplit, hx1, _, _⟩
  · rw [heq]
    by_cases hth : ((9999 : ℤ), (99999 : ℚ)).2 ≤ DISTANCE_THRESHOLD
    · exact Or.inl (by rw [if_pos hth])
    · exact Or.inl (by rw [if_neg hth])
  · by_cases hth :
        (stops.foldl (stopStep d la lo) (9999, 99999)).2 ≤ DISTANCE_THRESHOLD
    · refine Or.inr ⟨x, ?_, ?_⟩
      · rw [hsplit]; exact List.mem_append_right pre (List.mem_cons_self x suf)
      · rw [if_pos hth, hx1]
    · exact Or.inl (by rw [if_neg hth])

lemma processEntries_wf :
    ∀ (entries : List Entry) (r : Roster), (∀ e ∈ entries, wellFormedEntry e) →
      (processEntries r entries).2 = none ∧
      ∀ x, x ∈ (processEntries r entries).1.vehicle_ids ↔
        (x ∈ r.vehicle_ids ∨ some x ∈ entries.map Entry.samsaradeviceid) := by
  intro entries
  induction entries with
  | nil =>
    intro r _
    refine ⟨rfl, ?_⟩
    intro x
    simp [processEntries]
  | cons e es ih =>
    intro r h
    have he : wellFormedEntry e := h e (List.mem_cons_self e es)
    rcases he with ⟨h1, h2, h3, h4⟩
    rcases Option.isSome_iff_exists.mp h1 with ⟨vid, hvid⟩
    rcases Option.isSome_iff_exists.mp h2 with ⟨pl, hpl⟩
    rcases Option.isSome_iff_exists.mp h3 with ⟨lp, hlp⟩
    rcases Option.isSome_iff_exists.mp h4 with ⟨nm, hnm⟩
    have hrw : processEntries r (e :: es) =
        processEntries
          { r with
            vehicle_ids := idAdd r.vehicle_ids vid
            placards := dset r.placards vid pl
            license_plates := dset r.license_plates vid lp
            vehicle_names := dset r.vehicle_names vid nm } es := by
      simp [processEntries, hvid, hpl, hlp, hnm]
    rw [hrw]
    rcases ih _ (fun e2 he2 => h e2 (List.mem_cons_of_mem e he2)) with ⟨ihA, ihB⟩
    refine ⟨ihA, ?_⟩
    intro x
    rw [ihB x]
    simp only [idAdd_mem, List.map_cons, List.mem_cons, hvid, Option.some.injEq]
    tauto

lemma build_ok (tp : ℤ) (sc : String) (pl lp : List (String × String))
    (vla vlo : List (String × ℚ)) (vot : List (String × Bool))
    (allowed : Option (List Stop)) (d : ℚ → ℚ → ℚ → ℚ → ℚ) (vid ts : String)
    (ps ls : String) (la lo : ℚ) (b : Bool)
    (h1 : pl.lookup vid = some ps) (h2 : lp.lookup vid = some ls)
    (h3 : vot.lookup vid = some b) (h4 : vla.lookup vid = some la)
    (h5 : vlo.lookup vid = some lo) :
    build_sfmta_payload tp sc pl lp vla vlo vot allowed d vid ts =
      Except.ok [("TechProviderId", PValue.vInt tp),
        ("ShuttleCompanyId", PValue.vStr sc),
        ("VehiclePlacardNum", PValue.vStr ps),
        ("LicensePlateNum", PValue.vStr ls),
        ("StopId", if b then PValue.vInt 9999 else find_stop_id allowed d la lo),
        ("VehicleStatus", PValue.vInt (if b then 1 else 2)),
        ("LocationLatitude", PValue.vRat la),
        ("LocationLongitude", PValue.vRat lo),
        ("TimeStampLocal", PValue.vStr ts)] := by
  cases b <;>
    simp [build_sfmta_payload, keyGet, h1, h2, h3, h4, h5, Bind.bind,
      Except.bind, pure, Except.pure]

lemma distance_self (T : TrigOps ℝ) (h0 : T.fsin 0 = 0) (hs0 : T.fsqrt 0 = 0)
    (hs1 : T.fsqrt 1 = 1) (ha : T.fatan2 0 1 = 0) (lat lon : ℝ) :
    distance T (some lat) (some lon) (some lat) (some lon) = 0 := by
  simp [distance, radians, h0, hs0, hs1, ha]

lemma distance_symm (T : TrigOps ℝ) (hodd : ∀ x : ℝ, T.fsin (-x) = -(T.fsin x))
    (a b c e : Option ℝ) : distance T a b c e = distance T c e a b := by
  have key : ∀ u v : ℝ,
      T.fsin (radians T (u - v) / 2) * T.fsin (radians T (u - v) / 2) =
        T.fsin (radians T (v - u) / 2) * T.fsin (radians T (v - u) / 2) := by
    intro u v
    have h1 : radians T (u - v) / 2 = -(radians T (v - u) / 2) := by
      unfold radians; ring
    rw [h1, hodd]
    ring
  rcases a with _ | la1 <;> rcases b with _ | lo1 <;>
    rcases c with _ | la2 <;> rcases e with _ | lo2 <;> simp [distance]
  have hA : T.fsin (radians T (la2 - la1) / 2) * T.fsin (radians T (la2 - la1) / 2) +
      T.fcos (radians T la1) * T.fcos (radians T la2) *
      T.fsin (radians T (lo2 - lo1) / 2) * T.fsin (radians T (lo2 - lo1) / 2) =
      T.fsin (radians T (la1 - la2) / 2) * T.fsin (radians T (la1 - la2) / 2) +
      T.fcos (radians T la2) * T.fcos (radians T la1) *
      T.fsin (radians T (lo1 - lo2) / 2) * T.fsin (radians T (lo1 - lo2) / 2) := by
    have k1 := key la2 la1
    have k2 := key lo2 lo1
    linear_combination k1 + T.fcos (radians T la1) * T.fcos (radians T la2) * k2
  rw [hA]


/-- C1 counterexample: with MAX_RETRIES failing attempts and the alert
throttle closed (now = last), push_vehicle_data makes exactly MAX_RETRIES
attempts but returns None, not the terminal error value "Failure". -/
theorem C1_counterexample :
    (push_vehicle_data (fun _ => false) 5000 5000).attempts = MAX_RETRIES ∧
    (push_vehicle_data (fun _ => false) 5000 5000).ret = none ∧
    (none : Option String) ≠ some "Failure" := by
  have h := runAttempts_all_fail (fun _ => false) 10 0 (fun i h1 h2 => rfl)
  have hc : ¬(ERROR_EMAIL_DELAY < (0 : ℚ)) := by
    norm_num [ERROR_EMAIL_DELAY]
  refine ⟨?_, ?_, by decide⟩ <;>
    simp [push_vehicle_data, MAX_RETRIES, h, alertStep, hc]

/-- C1 (amended): for both retried calls, N < MAX_RETRIES failures
followed by a success yield "Success" after N + 1 attempts; MAX_RETRIES
consecutive failures yield, after exactly MAX_RETRIES attempts,
"Failure" from get_all_vehicle_data unconditionally, while
push_vehicle_data never returns success but returns "Failure" only when
the alert email is dispatched and None when the throttle suppresses
it. -/
theorem C1_retry_bounds :
    ∀ (ga : Nat → Option (List LocEntry)) (pa : Nat → Bool) (maps : PosMaps)
      (now last : ℚ) (N : Nat) (vs : List LocEntry), N < MAX_RETRIES →
    (((∀ i, i < N → ga i = none) → ga N = some vs →
        (get_all_vehicle_data ga maps now last).ret = "Success" ∧
        (get_all_vehicle_data ga maps now last).attempts = N + 1) ∧
      ((∀ i, i < N → pa i = false) → pa N = true →
        (push_vehicle_data pa now last).ret = some "Success" ∧
        (push_vehicle_data pa now last).attempts = N + 1) ∧
      ((∀ i, i < MAX_RETRIES → ga i = none) →
        (get_all_vehicle_data ga maps now last).ret = "Failure" ∧
        (get_all_vehicle_data ga maps now last).attempts = MAX_RETRIES) ∧
      ((∀ i, i < MAX_RETRIES → pa i = false) →
        (push_vehicle_data pa now last).ret =
          (if ERROR_EMAIL_DELAY < now - last then some "Failure" else none) ∧
        (push_vehicle_data pa now last).ret ≠ some "Success" ∧
        (push_vehicle_data pa now last).attempts = MAX_RETRIES)) := by
  intro ga pa maps now last N vs hN
  refine ⟨?_, ?_, ?_, ?_⟩
  · intro hfail hsucc
    have h := runFetch_success ga MAX_RETRIES 0 N vs (by omega) (by omega)
      (fun i _ hi => hfail i hi) hsucc
    simp [get_all_vehicle_data, h]
  · intro hfail hsucc
    have h := runAttempts_success pa MAX_RETRIES 0 N (by omega) (by omega)
      (fun i _ hi => hfail i hi) hsucc
    simp [push_vehicle_data, h]
  · intro hfail
    have h := runFetch_all_fail ga MAX_RETRIES 0 (fun i _ hi => hfail i (by omega))
    simp [get_all_vehicle_data, h]
  · intro hfail
    have h := runAttempts_all_fail pa MAX_RETRIES 0 (fun i _ hi => hfail i (by omega))
    by_cases hc : ERROR_EMAIL_DELAY < now - last <;>
      simp [push_vehicle_data, h, alertStep, hc]

/-- C1 witness at concrete inputs: three failures then a success, and the
all-fail cases. -/
theorem C1_retry_bounds_witness :
    ((get_all_vehicle_data (fun i => if i < 3 then none else some [])
        ⟨[], [], []⟩ 10000 0).ret = "Success" ∧
      (get_all_vehicle_data (fun i => if i < 3 then none else some [])
        ⟨[], [], []⟩ 10000 0).attempts = 4) ∧
    ((push_vehicle_data (fun i => decide (3 ≤ i)) 10000 0).ret = some "Success" ∧
      (push_vehicle_data (fun i => decide (3 ≤ i)) 10000 0).attempts = 4) ∧
    ((get_all_vehicle_data (fun _ => none) ⟨[], [], []⟩ 10000 0).ret = "Failure" ∧
      (get_all_vehicle_data (fun _ => none) ⟨[], [], []⟩ 10000 0).attempts =
        MAX_RETRIES) := by
  have h := C1_retry_bounds (fun i => if i < 3 then none else some [])
    (fun i => decide (3 ≤ i)) ⟨[], [], []⟩ 10000 0 3 [] (by decide)
  have h2 := C1_retry_bounds (fun _ => none) (fun _ => false) ⟨[], [], []⟩
    10000 0 3 [] (by decide)
  exact ⟨h.1 (by decide) (by decide), h.2.1 (by decide) (by decide),
    h2.2.2.1 (fun i _ => rfl)⟩

/-- C2: the at-most-one-notification-per-window guarantee fails under
the source's own concurrency.  Two push threads that exhaust their
retries at times 10000 and 10001 (one second apart, LAST_ERROR_EMAIL_TIME
still 0) and that both evaluate the line-353 check before either reaches
the line-357 update - an interleaving the blocking SMTP send between
those lines invites - each pass the stale check and each send, so two
error emails go out one second apart, far inside one ERROR_EMAIL_DELAY
window; serializing the very same two reporting sections sends exactly
one email.  The code's header comment (lines 22-23) promises at most one
email per ERROR_EMAIL_DELAY, so the code, not the claim, is at fault. -/
theorem C2_throttle_race :
    (raceRun (fun i => if i = 0 then 10000 else 10001) ⟨0, [], []⟩
        [ThreadAct.check 0, ThreadAct.check 1, ThreadAct.send 0,
          ThreadAct.update 0, ThreadAct.send 1, ThreadAct.update 1]).sent =
      [10000, 10001] ∧
    (10001 : ℚ) - 10000 < ERROR_EMAIL_DELAY ∧
    (raceRun (fun i => if i = 0 then 10000 else 10001) ⟨0, [], []⟩
        [ThreadAct.check 0, ThreadAct.send 0, ThreadAct.update 0,
          ThreadAct.check 1, ThreadAct.send 1, ThreadAct.update 1]).sent =
      [10000] := by
  refine ⟨?_, by norm_num [ERROR_EMAIL_DELAY], ?_⟩ <;>
    · simp [raceRun, raceStep]
      norm_num [ERROR_EMAIL_DELAY]

/-- C3: for any vehicle whose roster and position lookups succeed, an
onTrip vehicle's payload has StopId 9999 and VehicleStatus 1 regardless
of the stop data and distance function, and a not-onTrip vehicle's
payload has VehicleStatus 2 and StopId exactly the result of
find_stop_id, whatever that result is. -/
theorem C3_trip_state :
    ∀ (tp : ℤ) (sc : String) (pl lp : List (String × String))
      (vla vlo : List (String × ℚ)) (vot : List (String × Bool))
      (allowed : Option (List Stop)) (d : ℚ → ℚ → ℚ → ℚ → ℚ)
      (vid ts ps ls : String) (la lo : ℚ),
    pl.lookup vid = some ps → lp.lookup vid = some ls →
    vla.lookup vid = some la → vlo.lookup vid = some lo →
    ((vot.lookup vid = some true →
        ∃ pay, build_sfmta_payload tp sc pl lp vla vlo vot allowed d vid ts =
            Except.ok pay ∧
          pay.lookup "StopId" = some (PValue.vInt 9999) ∧
          pay.lookup "VehicleStatus" = some (PValue.vInt 1)) ∧
      (vot.lookup vid = some false →
        ∃ pay, build_sfmta_payload tp sc pl lp vla vlo vot allowed d vid ts =
            Except.ok pay ∧
          pay.lookup "StopId" = some (find_stop_id allowed d la lo) ∧
          pay.lookup "VehicleStatus" = some (PValue.vInt 2))) := by
  intro tp sc pl lp vla vlo vot allowed d vid ts ps ls la lo h1 h2 h4 h5
  constructor
  · intro h3
    refine ⟨_, build_ok tp sc pl lp vla vlo vot allowed d vid ts ps ls la lo
      true h1 h2 h3 h4 h5, ?_, ?_⟩ <;> simp [List.lookup]
  · intro h3
    refine ⟨_, build_ok tp sc pl lp vla vlo vot allowed d vid ts ps ls la lo
      false h1 h2 h3 h4 h5, ?_, ?_⟩ <;> simp [List.lookup]

/-- C3 witness: a concrete onTrip vehicle and a concrete parked vehicle. -/
theorem C3_trip_state_witness :
    (∃ pay, build_sfmta_payload 5 "SC" [("A", "P")] [("A", "L")] [("A", 37)]
        [("A", -122)] [("A", true)] (some []) (fun _ _ _ _ => 0) "A" "TS" =
          Except.ok pay ∧
        pay.lookup "StopId" = some (PValue.vInt 9999) ∧
        pay.lookup "VehicleStatus" = some (PValue.vInt 1)) ∧
    (∃ pay, build_sfmta_payload 5 "SC" [("B", "P")] [("B", "L")] [("B", 37)]
        [("B", -122)] [("B", false)] (some []) (fun _ _ _ _ => 0) "B" "TS" =
          Except.ok pay ∧
        pay.lookup "StopId" =
          some (find_stop_id (some []) (fun _ _ _ _ => 0) 37 (-122)) ∧
        pay.lookup "VehicleStatus" = some (PValue.vInt 2)) :=
  ⟨(C3_trip_state 5 "SC" [("A", "P")] [("A", "L")] [("A", 37)] [("A", -122)]
      [("A", true)] (some []) (fun _ _ _ _ => 0) "A" "TS" "P" "L" 37 (-122)
      rfl rfl rfl rfl).1 rfl,
    (C3_trip_state 5 "SC" [("B", "P")] [("B", "L")] [("B", 37)] [("B", -122)]
      [("B", false)] (some []) (fun _ _ _ _ => 0) "B" "TS" "P" "L" 37 (-122)
      rfl rfl rfl rfl).2 rfl⟩

/-- C4: find_stop_id on successfully loaded stop data returns the
sentinel 9999 for an empty stop set and whenever every stop is farther
than DISTANCE_THRESHOLD; and whenever some stop is within the threshold
it returns the id of a closest stop, strictly closer than every stop
before it in iteration order (the first-encountered tie-break). -/
theorem C4_nearest_stop :
    ∀ (d : ℚ → ℚ → ℚ → ℚ → ℚ) (la lo : ℚ) (stops : List Stop),
    (find_stop_id (some []) d la lo = PValue.vInt 9999) ∧
    ((∀ s ∈ stops, DISTANCE_THRESHOLD < sdist d la lo s) →
      find_stop_id (some stops) d la lo = PValue.vInt 9999) ∧
    ((∃ s ∈ stops, sdist d la lo s ≤ DISTANCE_THRESHOLD) →
      ∃ pre x suf, stops = pre ++ x :: suf ∧
        find_stop_id (some stops) d la lo = PValue.vInt x.StopId ∧
        (∀ t ∈ stops, sdist d la lo x ≤ sdist d la lo t) ∧
        (∀ t ∈ pre, sdist d la lo x < sdist d la lo t)) := by
  intro d la lo stops
  refine ⟨?_, ?_, ?_⟩
  · simp [find_stop_id, stopScan, DISTANCE_THRESHOLD]
  · intro hall
    rcases (stopScan_inv d la lo stops (9999, 99999)).2.2 with
      heq | ⟨_, pre, x, suf, hsplit, _, hx2, _⟩
    · have hth : ¬((stops.foldl (stopStep d la lo) (9999, 99999)).2 ≤
          DISTANCE_THRESHOLD) := by
        rw [heq]
        norm_num [DISTANCE_THRESHOLD]
      simp [find_stop_id, stopScan, hth]
    · have hxmem : x ∈ stops := by
        rw [hsplit]; exact List.mem_append_right pre (List.mem_cons_self x suf)
      have hth : ¬((stops.foldl (stopStep d la lo) (9999, 99999)).2 ≤
          DISTANCE_THRESHOLD) := by
        rw [hx2]
        exact not_le.mpr (hall x hxmem)
      simp [find_stop_id, stopScan, hth]
  · rintro ⟨s1, hs1, hd1⟩
    rcases stopScan_inv d la lo stops (9999, 99999) with ⟨_, hmin, hcase⟩
    have hth : (stops.foldl (stopStep d la lo) (9999, 99999)).2 ≤
        DISTANCE_THRESHOLD := le_trans (hmin s1 hs1) hd1
    rcases hcase with heq | ⟨_, pre, x, suf, hsplit, hx1, hx2, hx3⟩
    · exfalso
      rw [heq] at hth
      norm_num [DISTANCE_THRESHOLD] at hth
    · refine ⟨pre, x, suf, hsplit, ?_, ?_, ?_⟩
      · simp [find_stop_id, stopScan, hth, hx1]
      · intro t ht
        rw [← hx2]
        exact hmin t ht
      · intro t ht
        rw [← hx2]
        exact hx3 t ht

/-- C4 witness: among stops with distances 10, 10 and 60 under a distance
function reading off the stop latitude, the first of the two equidistant
stops within the threshold is returned; an empty set and an
all-too-far set yield the sentinel. -/
theorem C4_nearest_stop_witness :
    (find_stop_id (some []) (fun a _ _ _ => a) 0 0 = PValue.vInt 9999) ∧
    (find_stop_id (some [⟨7, 60, 0⟩, ⟨8, 70, 0⟩]) (fun a _ _ _ => a) 0 0 =
      PValue.vInt 9999) ∧
    (∃ pre x suf,
      ([⟨7, 10, 0⟩, ⟨8, 10, 0⟩, ⟨9, 60, 0⟩] : List Stop) = pre ++ x :: suf ∧
      find_stop_id (some [⟨7, 10, 0⟩, ⟨8, 10, 0⟩, ⟨9, 60, 0⟩])
          (fun a _ _ _ => a) 0 0 = PValue.vInt x.StopId ∧
      (∀ t ∈ ([⟨7, 10, 0⟩, ⟨8, 10, 0⟩, ⟨9, 60, 0⟩] : List Stop),
        sdist (fun a _ _ _ => a) 0 0 x ≤ sdist (fun a _ _ _ => a) 0 0 t) ∧
      (∀ t ∈ pre, sdist (fun a _ _ _ => a) 0 0 x < sdist (fun a _ _ _ => a) 0 0 t)) := by
  refine ⟨(C4_nearest_stop (fun a _ _ _ => a) 0 0 []).1,
    (C4_nearest_stop (fun a _ _ _ => a) 0 0 [⟨7, 60, 0⟩, ⟨8, 70, 0⟩]).2.1 ?_,
    (C4_nearest_stop (fun a _ _ _ => a) 0 0
      [⟨7, 10, 0⟩, ⟨8, 10, 0⟩, ⟨9, 60, 0⟩]).2.2 ?_⟩
  · intro s hs
    rcases List.mem_cons.mp hs with h | h
    · subst h; norm_num [sdist, DISTANCE_THRESHOLD]
    · rcases List.mem_cons.mp h with h2 | h2
      · subst h2; norm_num [sdist, DISTANCE_THRESHOLD]
      · exact absurd h2 (List.not_mem_nil s)
  · refine ⟨⟨7, 10, 0⟩, List.mem_cons_self _ _, ?_⟩
    norm_num [sdist, DISTANCE_THRESHOLD]

lemma build_ok_inv (tp : ℤ) (sc : String) (pl lp : List (String × String))
    (vla vlo : List (String × ℚ)) (vot : List (String × Bool))
    (allowed : Option (List Stop)) (d : ℚ → ℚ → ℚ → ℚ → ℚ) (vid ts : String)
    (pay : List (String × PValue))
    (h : build_sfmta_payload tp sc pl lp vla vlo vot allowed d vid ts =
      Except.ok pay) :
    ∃ ps ls b la lo, pl.lookup vid = some ps ∧ lp.lookup vid = some ls ∧
      vot.lookup vid = some b ∧ vla.lookup vid = some la ∧
      vlo.lookup vid = some lo ∧
      pay = [("TechProviderId", PValue.vInt tp),
        ("ShuttleCompanyId", PValue.vStr sc),
        ("VehiclePlacardNum", PValue.vStr ps),
        ("LicensePlateNum", PValue.vStr ls),
        ("StopId", if b then PValue.vInt 9999 else find_stop_id allowed d la lo),
        ("VehicleStatus", PValue.vInt (if b then 1 else 2)),
        ("LocationLatitude", PValue.vRat la),
        ("LocationLongitude", PValue.vRat lo),
        ("TimeStampLocal", PValue.vStr ts)] := by
  rcases hpl : pl.lookup vid with _ | ps
  · simp [build_sfmta_payload, keyGet, hpl, Bind.bind, Except.bind] at h
  rcases hlp : lp.lookup vid with _ | ls
  · simp [build_sfmta_payload, keyGet, hpl, hlp, Bind.bind, Except.bind] at h
  rcases hot : vot.lookup vid with _ | b
  · simp [build_sfmta_payload, keyGet, hpl, hlp, hot, Bind.bind, Except.bind] at h
  rcases hla : vla.lookup vid with _ | la
  · cases b <;>
      simp [build_sfmta_payload, keyGet, hpl, hlp, hot, hla, Bind.bind,
        Except.bind, pure, Except.pure] at h
  rcases hlo : vlo.lookup vid with _ | lo
  · cases b <;>
      simp [build_sfmta_payload, keyGet, hpl, hlp, hot, hla, hlo, Bind.bind,
        Except.bind, pure, Except.pure] at h
  rw [build_ok tp sc pl lp vla vlo vot allowed d vid ts ps ls la lo b
    hpl hlp hot hla hlo] at h
  injection h with h2
  exact ⟨ps, ls, b, la, lo, rfl, rfl, rfl, rfl, rfl, h2.symm⟩

/-- C5 counterexample: when the allowed-stop load fails, the built
payload's StopId is the error string returned by find_stop_id, not the
sentinel 9999 (nor any stop id). -/
theorem C5_counterexample :
    ((build_sfmta_payload 5 "SC" [("A", "P")] [("A", "L")] [("A", 37)]
        [("A", -122)] [("A", false)] none (fun _ _ _ _ => 0) "A"
        "TS").toOption.bind (fun p => p.lookup "StopId")) =
      some (PValue.vStr "Error loading data from S3 bucket") ∧
    PValue.vStr "Error loading data from S3 bucket" ≠ PValue.vInt 9999 := by
  constructor
  · decide
  · decide

/-- C5 (amended): whenever the allowed-stop data loads successfully,
every built payload's StopId is a real stop's id or the sentinel 9999;
but a load failure does not degrade to the sentinel - find_stop_id
returns the error message string and that string is stored in StopId
unchanged. -/
theorem C5_stop_id_values :
    ∀ (tp : ℤ) (sc : String) (pl lp : List (String × String))
      (vla vlo : List (String × ℚ)) (vot : List (String × Bool))
      (stops : List Stop) (d : ℚ → ℚ → ℚ → ℚ → ℚ) (vid ts : String)
      (pay : List (String × PValue)) (v : PValue),
    build_sfmta_payload tp sc pl lp vla vlo vot (some stops) d vid ts =
      Except.ok pay →
    pay.lookup "StopId" = some v →
    (v = PValue.vInt 9999 ∨ ∃ s ∈ stops, v = PValue.vInt s.StopId) := by
  intro tp sc pl lp vla vlo vot stops d vid ts pay v h hv
  rcases build_ok_inv tp sc pl lp vla vlo vot (some stops) d vid ts pay h with
    ⟨ps, ls, b, la, lo, _, _, _, _, _, hpay⟩
  subst hpay
  simp [List.lookup] at hv
  cases b
  · simp at hv
    rcases find_stop_id_range stops d la lo with h9 | ⟨s, hs, hS⟩
    · rw [h9] at hv
      exact Or.inl hv.symm
    · rw [hS] at hv
      exact Or.inr ⟨s, hs, hv.symm⟩
  · simp at hv
    exact Or.inl hv.symm

/-- C5 witness: a successful load with one in-range stop yields that
stop's id in StopId. -/
theorem C5_stop_id_values_witness :
    PValue.vInt 7 = PValue.vInt 9999 ∨
      ∃ s ∈ ([⟨7, 10, 0⟩] : List Stop), PValue.vInt 7 = PValue.vInt s.StopId :=
  C5_stop_id_values 5 "SC" [("A", "P")] [("A", "L")] [("A", 37)] [("A", -122)]
    [("A", false)] [⟨7, 10, 0⟩] (fun a _ _ _ => a) "A" "TS" _ (PValue.vInt 7)
    rfl rfl

/-- C8: every successfully built payload lists its fields in exactly the
order TechProviderId, ShuttleCompanyId, VehiclePlacardNum,
LicensePlateNum, StopId, VehicleStatus, LocationLatitude,
LocationLongitude, TimeStampLocal; serialization of the ordered record
preserves this insertion order. -/
theorem C8_field_order :
    ∀ (tp : ℤ) (sc : String) (pl lp : List (String × String))
      (vla vlo : List (String × ℚ)) (vot : List (String × Bool))
      (allowed : Option (List Stop)) (d : ℚ → ℚ → ℚ → ℚ → ℚ)
      (vid ts : String) (pay : List (String × PValue)),
    build_sfmta_payload tp sc pl lp vla vlo vot allowed d vid ts =
      Except.ok pay →
    pay.map Prod.fst = ["TechProviderId", "ShuttleCompanyId",
      "VehiclePlacardNum", "LicensePlateNum", "StopId", "VehicleStatus",
      "LocationLatitude", "LocationLongitude", "TimeStampLocal"] := by
  intro tp sc pl lp vla vlo vot allowed d vid ts pay h
  rcases build_ok_inv tp sc pl lp vla vlo vot allowed d vid ts pay h with
    ⟨ps, ls, b, la, lo, _, _, _, _, _, hpay⟩
  subst hpay
  rfl

/-- C8 witness: the payload built for a concrete onTrip vehicle. -/
theorem C8_field_order_witness :
    ([("TechProviderId", PValue.vInt 5),
      ("ShuttleCompanyId", PValue.vStr "SC"),
      ("VehiclePlacardNum", PValue.vStr "P"),
      ("LicensePlateNum", PValue.vStr "L"),
      ("StopId", PValue.vInt 9999),
      ("VehicleStatus", PValue.vInt 1),
      ("LocationLatitude", PValue.vRat 37),
      ("LocationLongitude", PValue.vRat (-122)),
      ("TimeStampLocal", PValue.vStr "TS")].map Prod.fst) =
    ["TechProviderId", "ShuttleCompanyId", "VehiclePlacardNum",
      "LicensePlateNum", "StopId", "VehicleStatus", "LocationLatitude",
      "LocationLongitude", "TimeStampLocal"] :=
  C8_field_order 5 "SC" [("A", "P")] [("A", "L")] [("A", 37)] [("A", -122)]
    [("A", true)] (some []) (fun _ _ _ _ => 0) "A" "TS" _ rfl

/-- C10: building a payload for a vehicle that has roster metadata but no
recorded position fails with the KeyError raised at the
vehicle_onTrip subscript, so the dispatch phase requires each vehicle it
processes to have appeared in a successful location response; with a
recorded position the build succeeds. -/
theorem C10_position_precondition :
    ∀ (tp : ℤ) (sc : String) (pl lp : List (String × String))
      (vla vlo : List (String × ℚ)) (vot : List (String × Bool))
      (allowed : Option (List Stop)) (d : ℚ → ℚ → ℚ → ℚ → ℚ)
      (vid ts ps ls : String),
    pl.lookup vid = some ps → lp.lookup vid = some ls →
    ((vot.lookup vid = none →
        build_sfmta_payload tp sc pl lp vla vlo vot allowed d vid ts =
          Except.error "KeyError: vehicle_onTrip") ∧
      (∀ (b : Bool) (la lo : ℚ), vot.lookup vid = some b →
        vla.lookup vid = some la → vlo.lookup vid = some lo →
        ∃ pay, build_sfmta_payload tp sc pl lp vla vlo vot allowed d vid ts =
          Except.ok pay)) := by
  intro tp sc pl lp vla vlo vot allowed d vid ts ps ls h1 h2
  constructor
  · intro hot
    simp [build_sfmta_payload, keyGet, h1, h2, hot, Bind.bind, Except.bind]
  · intro b la lo hot hla hlo
    exact ⟨_, build_ok tp sc pl lp vla vlo vot allowed d vid ts ps ls la lo b
      h1 h2 hot hla hlo⟩

/-- C10 witness: a vehicle present in the roster maps but absent from the
position maps makes the build raise; adding a position makes it
succeed. -/
theorem C10_position_precondition_witness :
    (build_sfmta_payload 5 "SC" [("A", "P")] [("A", "L")] [] [] []
        (some []) (fun _ _ _ _ => 0) "A" "TS" =
      Except.error "KeyError: vehicle_onTrip") ∧
    (∃ pay, build_sfmta_payload 5 "SC" [("A", "P")] [("A", "L")] [("A", 37)]
        [("A", -122)] [("A", true)] (some []) (fun _ _ _ _ => 0) "A" "TS" =
      Except.ok pay) :=
  ⟨(C10_position_precondition 5 "SC" [("A", "P")] [("A", "L")] [] [] []
      (some []) (fun _ _ _ _ => 0) "A" "TS" "P" "L" rfl rfl).1 rfl,
    (C10_position_precondition 5 "SC" [("A", "P")] [("A", "L")] [("A", 37)]
      [("A", -122)] [("A", true)] (some []) (fun _ _ _ _ => 0) "A" "TS" "P" "L"
      rfl rfl).2 true 37 (-122) rfl rfl rfl⟩

/-- C6 counterexample: a cycle exception at a time when the throttle
window is open, combined with send_error_email itself raising inside the
except handler, terminates the push_all_data loop - the exception thrown
while reporting is not caught. -/
theorem C6_counterexample :
    push_all_data_iter BodyOutcome.raises true 10000 0 = IterResult.crashed := by
  simp [push_all_data_iter, alertStep]
  norm_num [ERROR_EMAIL_DELAY]

/-- C6 (amended): every exception raised in the cycle body is caught at
the loop boundary and the loop proceeds (reporting through the shared
throttle step) provided dispatching the error email does not itself
raise; but when send_error_email raises inside the except handler the
exception escapes and the loop terminates. -/
theorem C6_loop_boundary :
    (∀ (b : BodyOutcome) (now last : ℚ),
        push_all_data_iter b false now last ≠ IterResult.crashed) ∧
    (∀ now last : ℚ, push_all_data_iter BodyOutcome.raises false now last =
        IterResult.next (alertStep last now).2) ∧
    (∀ now last : ℚ, ERROR_EMAIL_DELAY < now - last →
        push_all_data_iter BodyOutcome.raises true now last =
          IterResult.crashed) := by
  refine ⟨?_, ?_, ?_⟩
  · intro b now last
    cases b
    · simp [push_all_data_iter]
    · by_cases hc : ERROR_EMAIL_DELAY < now - last <;>
        simp [push_all_data_iter, alertStep, hc]
  · intro now last
    simp [push_all_data_iter]
  · intro now last hc
    simp [push_all_data_iter, alertStep, hc]

/-- C6 witness: the loop survives a body exception when the email is
dispatched without raising, and crashes at the same concrete input when
the email raises. -/
theorem C6_loop_boundary_witness :
    push_all_data_iter BodyOutcome.raises false 10000 0 =
      IterResult.next (alertStep 0 10000).2 ∧
    push_all_data_iter BodyOutcome.raises true 10000 0 = IterResult.crashed :=
  ⟨C6_loop_boundary.2.1 10000 0,
    C6_loop_boundary.2.2 10000 0 (by norm_num [ERROR_EMAIL_DELAY])⟩

/-- C7 counterexample: a feed whose second entry is missing its placard
column makes get_vehicle_details fail after vehicle_ids was cleared and
partially repopulated - the prior roster (vehicle A) is lost, the
failing entry's id C was added, and the call did not succeed, so the
result is neither the prior roster nor a full replacement. -/
theorem C7_counterexample :
    get_vehicle_details ⟨["A"], [("A", "PA")], [("A", "LA")], [("A", "NA")]⟩
        (SheetResponse.httpR 200 (SheetBody.entries
          [⟨some "B", some "PB", some "LB", some "NB"⟩,
            ⟨some "C", none, none, none⟩])) =
      (⟨["B", "C"], [("A", "PA"), ("B", "PB")], [("A", "LA"), ("B", "LB")],
        [("A", "NA"), ("B", "NB")]⟩,
       "Error reading vehicle details from Google Sheet\nKeyError: gsx$vehicleplacardnumber") ∧
    (⟨["B", "C"], [("A", "PA"), ("B", "PB")], [("A", "LA"), ("B", "LB")],
        [("A", "NA"), ("B", "NB")]⟩ : Roster) ≠
      ⟨["A"], [("A", "PA")], [("A", "LA")], [("A", "NA")]⟩ ∧
    "Error reading vehicle details from Google Sheet\nKeyError: gsx$vehicleplacardnumber" ≠
      "Success" := by
  refine ⟨by decide, by decide, by decide⟩

/-- C7 (amended): refresh leaves the prior roster entirely unchanged for
every failure that happens before the id-set clear at line 148 -
transport error, non-200 status (which even returns "Success"), and a
json.loads failure (line 146).  It is NOT atomic for failures after the
clear: when the parsed JSON lacks the feed/entry keys (line 150) the
vehicle-id set has already been cleared and is lost while the metadata
maps are retained, and (per the counterexample) a failure partway
through the entries leaves a partially rebuilt id set.  On a fully
well-formed feed the call succeeds with the vehicle-id set wholly
replaced by exactly the feed's device ids. -/
theorem C7_roster_refresh :
    (∀ (r : Roster) (m : String),
        (get_vehicle_details r (SheetResponse.transportError m)).1 = r) ∧
    (∀ (r : Roster) (code : ℤ) (body : SheetBody),
        code ≠ 200 → (get_vehicle_details r (SheetResponse.httpR code body)).1 = r) ∧
    (∀ (r : Roster) (m : String),
        (get_vehicle_details r
          (SheetResponse.httpR 200 (SheetBody.parseError m))).1 = r) ∧
    (∀ (r : Roster) (m : String),
        get_vehicle_details r (SheetResponse.httpR 200 (SheetBody.shapeError m)) =
          ({ r with vehicle_ids := [] },
            "Error reading vehicle details from Google Sheet\n" ++ m)) ∧
    (∀ (r : Roster) (entries : List Entry), (∀ e ∈ entries, wellFormedEntry e) →
        (get_vehicle_details r
            (SheetResponse.httpR 200 (SheetBody.entries entries))).2 =
          "Success" ∧
        ∀ x, x ∈ (get_vehicle_details r
            (SheetResponse.httpR 200 (SheetBody.entries entries))).1.vehicle_ids ↔
          some x ∈ entries.map Entry.samsaradeviceid) := by
  refine ⟨?_, ?_, ?_, ?_, ?_⟩
  · intro r m; rfl
  · intro r code body hc
    simp [get_vehicle_details, hc]
  · intro r m
    simp [get_vehicle_details]
  · intro r m
    simp [get_vehicle_details]
  · intro r entries hwf
    have h := processEntries_wf entries { r with vehicle_ids := [] } hwf
    rcases hpe : processEntries { r with vehicle_ids := [] } entries with ⟨r2, o⟩
    rw [hpe] at h
    rcases h with ⟨h1, h2⟩
    subst h1
    constructor
    · simp [get_vehicle_details, hpe]
    · intro x
      have h3 := h2 x
      simp only [List.not_mem_nil, false_or] at h3
      have hred : (get_vehicle_details r
          (SheetResponse.httpR 200 (SheetBody.entries entries))).1 = r2 := by
        simp [get_vehicle_details, hpe]
      rw [hred]
      exact h3

/-- C7 witness: a well-formed two-entry feed replaces a one-vehicle
roster's id set with exactly the feed's ids, and a feed/entry-key
failure on the same roster clears the id set while keeping the metadata
maps. -/
theorem C7_roster_refresh_witness :
    ((get_vehicle_details ⟨["A"], [("A", "PA")], [("A", "LA")], [("A", "NA")]⟩
        (SheetResponse.httpR 200 (SheetBody.entries
          [⟨some "B", some "PB", some "LB", some "NB"⟩,
            ⟨some "C", some "PC", some "LC", some "NC"⟩]))).2 = "Success" ∧
      ∀ x, x ∈ (get_vehicle_details ⟨["A"], [("A", "PA")], [("A", "LA")],
          [("A", "NA")]⟩
          (SheetResponse.httpR 200 (SheetBody.entries
            [⟨some "B", some "PB", some "LB", some "NB"⟩,
              ⟨some "C", some "PC", some "LC", some "NC"⟩]))).1.vehicle_ids ↔
        some x ∈ ([⟨some "B", some "PB", some "LB", some "NB"⟩,
          ⟨some "C", some "PC", some "LC", some "NC"⟩] : List Entry).map
            Entry.samsaradeviceid) ∧
    get_vehicle_details ⟨["A"], [("A", "PA")], [("A", "LA")], [("A", "NA")]⟩
        (SheetResponse.httpR 200 (SheetBody.shapeError "KeyError: entry")) =
      (⟨[], [("A", "PA")], [("A", "LA")], [("A", "NA")]⟩,
        "Error reading vehicle details from Google Sheet\nKeyError: entry") :=
  ⟨C7_roster_refresh.2.2.2.2 ⟨["A"], [("A", "PA")], [("A", "LA")], [("A", "NA")]⟩
      [⟨some "B", some "PB", some "LB", some "NB"⟩,
        ⟨some "C", some "PC", some "LC", some "NC"⟩] (by decide),
    C7_roster_refresh.2.2.2.1 ⟨["A"], [("A", "PA")], [("A", "LA")], [("A", "NA")]⟩
      "KeyError: entry"⟩

/-- C9: for the haversine distance with primitives satisfying the real
sine, square root and atan2 identities (sin 0 = 0, sin odd, sqrt 0 = 0,
sqrt 1 = 1, atan2 0 1 = 0), the distance from any non-null coordinate to
itself is 0, and distance is symmetric in its two coordinate pairs (also
through the null-coordinate sentinel path). -/
theorem C9_distance_props :
    ∀ (T : TrigOps ℝ), T.fsin 0 = 0 → (∀ x : ℝ, T.fsin (-x) = -(T.fsin x)) →
    T.fsqrt 0 = 0 → T.fsqrt 1 = 1 → T.fatan2 0 1 = 0 →
    ((∀ lat lon : ℝ,
        distance T (some lat) (some lon) (some lat) (some lon) = 0) ∧
      (∀ a b c e : Option ℝ, distance T a b c e = distance T c e a b)) := by
  intro T h0 hodd hs0 hs1 ha
  exact ⟨distance_self T h0 hs0 hs1 ha, distance_symm T hodd⟩

/-- C9 witness: the primitives instantiated with the genuine real sine,
cosine, square root and the complex-argument form of atan2. -/
theorem C9_distance_props_witness :
    distance ⟨Real.pi, Real.sin, Real.cos, Real.sqrt,
        fun y x => Complex.arg ⟨x, y⟩⟩
      (some 37) (some (-122)) (some 37) (some (-122)) = 0 ∧
    distance ⟨Real.pi, Real.sin, Real.cos, Real.sqrt,
        fun y x => Complex.arg ⟨x, y⟩⟩
      (some 1) (some 2) (some 3) (some 4) =
    distance ⟨Real.pi, Real.sin, Real.cos, Real.sqrt,
        fun y x => Complex.arg ⟨x, y⟩⟩
      (some 3) (some 4) (some 1) (some 2) := by
  have harg : (fun (y x : ℝ) => Complex.arg ⟨x, y⟩) 0 1 = 0 := by
    have h1 : (⟨1, 0⟩ : ℂ) = 1 := rfl
    show Complex.arg ⟨1, 0⟩ = 0
    rw [h1]
    exact Complex.arg_one
  have h := C9_distance_props
    ⟨Real.pi, Real.sin, Real.cos, Real.sqrt, fun y x => Complex.arg ⟨x, y⟩⟩
    Real.sin_zero (fun x => Real.sin_neg x) Real.sqrt_zero Real.sqrt_one harg
  exact ⟨h.1 37 (-122), h.2 (some 1) (some 2) (some 3) (some 4)⟩
